import Mathlib

/-!
Verification of the client-side form scripts of the `ecom_import_tool`
repository (Frappe DocType customizations for importing e-commerce bills).

The embedding models, from the JavaScript sources:
  * the platform-dependent field show/hide logic of the
    "Ecommerce Bill Import" form (`refresh` and `ecommerce_mapping` handlers),
  * the Start Import button callback,
  * the `error_json` parsing and error-table rendering of the `refresh`
    handler (both the variant with the duplicate-filter checkbox and the
    variant without it), including a model of `JSON.parse`,
  * the `toggleDuplicateErrors` checkbox behaviour on the rendered rows,
  * the `data_import_progress` realtime handler,
  * the Delivery Note / Sales Invoice "Name" label toggles.
-/

/- ### Characters that the source-text discipline spells by code point -/

/-- The character `{` (used in JavaScript/JSON text). -/
def lbraceChar : Char := Char.ofNat 123

/-- The character `}`. -/
def rbraceChar : Char := Char.ofNat 125

/-- The apostrophe character. -/
def aposChar : Char := Char.ofNat 39

/-- The backtick character. -/
def btickChar : Char := Char.ofNat 96

/- ### JavaScript string helpers -/

/-- Whether the first list is a prefix of the second. -/
def isPrefixList : List Char → List Char → Bool
  | [], _ => true
  | _ :: _, [] => false
  | a :: as, b :: bs => a == b && isPrefixList as bs

/-- Whether the first list occurs contiguously inside the second. -/
def containsSub : List Char → List Char → Bool
  | pat, [] => isPrefixList pat []
  | pat, c :: rest => isPrefixList pat (c :: rest) || containsSub pat rest

/-- JavaScript `String.prototype.includes`: `jsIncludes s pat` is true when
`pat` occurs as a contiguous substring of `s`. -/
def jsIncludes (s pat : String) : Bool :=
  containsSub pat.data s.data

/-- Concatenation of a list of strings (used where the scripts build HTML by
repeated `+=`). -/
def strConcat : List String → String
  | [] => ""
  | s :: rest => s ++ strConcat rest

/-- The whitespace characters `String.prototype.trim` strips. -/
def jsWsChar (c : Char) : Bool :=
  c == ' ' || c == '\t' || c == '\n' || c == '\r' ||
    c == Char.ofNat 12 || c == Char.ofNat 11 || c == Char.ofNat 160

/-- Drop leading JavaScript whitespace from a character list. -/
def dropLeadingWs : List Char → List Char
  | [] => []
  | c :: cs => if jsWsChar c then dropLeadingWs cs else c :: cs

/-- JavaScript `String.prototype.trim`: strip whitespace from both ends. -/
def jsTrim (s : String) : String :=
  String.mk ((dropLeadingWs (dropLeadingWs s.data).reverse).reverse)

/-- ASCII lowercase of one character. -/
def asciiLowerChar (c : Char) : Char :=
  if 'A' ≤ c ∧ c ≤ 'Z' then Char.ofNat (c.toNat + 32) else c

/-- ASCII `String.prototype.toLowerCase`, used to express case-insensitive
matching. -/
def jsToLower (s : String) : String :=
  String.mk (s.data.map asciiLowerChar)

/- ### Ecommerce Bill Import: platform-dependent field visibility

The doctype declares the fields `amazon_type`, `cred_attach`, `cred`,
`cred_items`, `flipkart_attach`, `flipkart_items`, `jio_mart_attach` and
`jio_mart_items`; each carries a `hidden` document-field property that the
handlers flip with `frm.set_df_property(..., "hidden", 0/1)`, and the
attach/select fields carry a stored value that `frm.set_value` can clear.
-/

/-- The visibility flags (`hidden` df-property, `true` = hidden) and stored
values of the platform-specific fields of an "Ecommerce Bill Import" form. -/
structure BillFormState where
  amazon_type_hidden : Bool
  cred_attach_hidden : Bool
  cred_hidden : Bool
  cred_items_hidden : Bool
  flipkart_attach_hidden : Bool
  flipkart_items_hidden : Bool
  jio_mart_attach_hidden : Bool
  jio_mart_items_hidden : Bool
  amazon_type : String
  cred_attach : String
  cred : String
  flipkart_attach : String
  jio_mart_attach : String
deriving Repr, DecidableEq

/-- The state the doctype JSON declares: every platform-specific field has
`"hidden": 1` and no stored value. -/
def initBillFormState : BillFormState :=
  { amazon_type_hidden := true, cred_attach_hidden := true, cred_hidden := true,
    cred_items_hidden := true, flipkart_attach_hidden := true,
    flipkart_items_hidden := true, jio_mart_attach_hidden := true,
    jio_mart_items_hidden := true, amazon_type := "", cred_attach := "",
    cred := "", flipkart_attach := "", jio_mart_attach := "" }

/-- The `frappe.model.get_value` callback inside the `refresh` handler of
`ecommerce_bill_import.js` (lines 27-73): branches on the resolved
`platform` of the linked Ecommerce Mapping and sets the `hidden` property of
the eight platform-specific fields; any platform outside the four known ones
matches no branch. -/
def refreshMappingCallback (platform : String) (st : BillFormState) : BillFormState :=
  if platform = "Amazon" then
    { st with cred_attach_hidden := true, cred_hidden := true, cred_items_hidden := true,
              amazon_type_hidden := false, flipkart_attach_hidden := true,
              flipkart_items_hidden := true, jio_mart_attach_hidden := true,
              jio_mart_items_hidden := true }
  else if platform = "CRED" then
    { st with cred_attach_hidden := false, cred_hidden := false, cred_items_hidden := false,
              amazon_type_hidden := true, flipkart_attach_hidden := true,
              flipkart_items_hidden := true, jio_mart_attach_hidden := true,
              jio_mart_items_hidden := true }
  else if platform = "Flipkart" then
    { st with cred_attach_hidden := true, cred_hidden := true, cred_items_hidden := true,
              amazon_type_hidden := true, flipkart_attach_hidden := false,
              flipkart_items_hidden := false, jio_mart_attach_hidden := true,
              jio_mart_items_hidden := true }
  else if platform = "Jiomart" then
    { st with cred_attach_hidden := true, cred_hidden := true, cred_items_hidden := true,
              amazon_type_hidden := true, flipkart_attach_hidden := true,
              flipkart_items_hidden := true, jio_mart_attach_hidden := false,
              jio_mart_items_hidden := false }
  else st

/-- The `ecommerce_mapping` field handler of `ecommerce_bill_import.js`
(lines 153-203): the same visibility branches as the refresh callback, and in
the CRED, Flipkart and Jiomart branches additionally
`frm.set_value("amazon_type", "")`. -/
def ecommerceMappingHandler (platform : String) (st : BillFormState) : BillFormState :=
  if platform = "Amazon" then
    { st with cred_attach_hidden := true, cred_hidden := true, cred_items_hidden := true,
              amazon_type_hidden := false, flipkart_attach_hidden := true,
              flipkart_items_hidden := true, jio_mart_attach_hidden := true,
              jio_mart_items_hidden := true }
  else if platform = "CRED" then
    { st with cred_attach_hidden := false, cred_hidden := false, cred_items_hidden := false,
              amazon_type_hidden := true, flipkart_attach_hidden := true,
              flipkart_items_hidden := true, jio_mart_attach_hidden := true,
              jio_mart_items_hidden := true, amazon_type := "" }
  else if platform = "Flipkart" then
    { st with cred_attach_hidden := true, cred_hidden := true, cred_items_hidden := true,
              amazon_type_hidden := true, flipkart_attach_hidden := false,
              flipkart_items_hidden := false, jio_mart_attach_hidden := true,
              jio_mart_items_hidden := true, amazon_type := "" }
  else if platform = "Jiomart" then
    { st with cred_attach_hidden := true, cred_hidden := true, cred_items_hidden := true,
              amazon_type_hidden := true, flipkart_attach_hidden := true,
              flipkart_items_hidden := true, jio_mart_attach_hidden := false,
              jio_mart_items_hidden := false, amazon_type := "" }
  else st

/-- Whether a platform string is one of the four the handlers branch on. -/
def knownPlatform (platform : String) : Bool :=
  platform == "Amazon" || platform == "CRED" || platform == "Flipkart" ||
    platform == "Jiomart"

/-- The visibility invariant the spec states: each platform-specific field
group is visible (its `hidden` flags are all `false`) exactly when the
resolved platform equals that group's platform. -/
def platformGroupsVisibleIff (platform : String) (st : BillFormState) : Prop :=
  (st.amazon_type_hidden = false ↔ platform = "Amazon") ∧
  ((st.cred_attach_hidden = false ∧ st.cred_hidden = false ∧
      st.cred_items_hidden = false) ↔ platform = "CRED") ∧
  ((st.flipkart_attach_hidden = false ∧ st.flipkart_items_hidden = false) ↔
      platform = "Flipkart") ∧
  ((st.jio_mart_attach_hidden = false ∧ st.jio_mart_items_hidden = false) ↔
      platform = "Jiomart")

/- ### A model of JSON values and of `JSON.parse`

`refresh` feeds `frm.doc.error_json` to `JSON.parse`; the parser below
follows the JSON grammar that `JSON.parse` accepts (whitespace, `null`,
`true`, `false`, numbers, strings with escapes, arrays, objects), returning
`none` where `JSON.parse` throws a `SyntaxError`.  Numbers are modelled as
rationals (JavaScript parses them into floating point; no claim depends on
fractional rounding or formatting). -/

/-- JSON values as `JSON.parse` produces them. -/
inductive Json where
  | null : Json
  | bool : Bool → Json
  | num : Rat → Json
  | str : String → Json
  | arr : List Json → Json
  | obj : List (String × Json) → Json
deriving Repr

/-- JavaScript truthiness of a parsed value: `null`, `false`, `0` and the
empty string are falsy; every array and object is truthy. -/
def jsTruthy : Json → Bool
  | .null => false
  | .bool b => b
  | .num q => !(q == 0)
  | .str s => !(s == "")
  | .arr _ => true
  | .obj _ => true

/-- Truthiness of a possibly-`undefined` value (`none` plays `undefined`). -/
def jsOptTruthy : Option Json → Bool
  | none => false
  | some v => jsTruthy v

/-- Property lookup on an object's field list; a key bound twice keeps the
later binding, as a JavaScript object built by `JSON.parse` does. -/
def jsLookupFields (fields : List (String × Json)) (key : String) : Option Json :=
  fields.foldl (fun acc kv => if kv.1 == key then some kv.2 else acc) none

/-- JavaScript property access `j[key]` on a parsed value: objects look the
key up, other non-`null` values yield `undefined` (`none`). -/
def jsLookup : Json → String → Option Json
  | .obj fields, key => jsLookupFields fields key
  | _, _ => none

/-- JavaScript property access that can throw: reading a property of `null`
raises a `TypeError`; every other parsed value yields the lookup result. -/
def jsGetField : Json → String → Except String (Option Json)
  | .null, _ => .error "TypeError: cannot read properties of null"
  | j, key => .ok (jsLookup j key)

/-- Decimal value of a digit run. -/
def digitsToNat (ds : List Char) : Nat :=
  ds.foldl (fun a c => a * 10 + (c.toNat - 48)) 0

/-- Split a leading run of decimal digits off a character list. -/
def takeDigits : List Char → List Char × List Char
  | [] => ([], [])
  | c :: cs =>
    if c.isDigit then
      let p := takeDigits cs
      (c :: p.1, p.2)
    else ([], c :: cs)

/-- The JSON whitespace characters. -/
def jsonWsChar (c : Char) : Bool :=
  c == ' ' || c == '\t' || c == '\n' || c == '\r'

/-- Drop leading JSON whitespace. -/
def skipJsonWs : List Char → List Char
  | [] => []
  | c :: cs => if jsonWsChar c then skipJsonWs cs else c :: cs

/-- Value of a hexadecimal digit, if `c` is one. -/
def hexVal (c : Char) : Option Nat :=
  if '0' ≤ c ∧ c ≤ '9' then some (c.toNat - 48)
  else if 'a' ≤ c ∧ c ≤ 'f' then some (c.toNat - 97 + 10)
  else if 'A' ≤ c ∧ c ≤ 'F' then some (c.toNat - 65 + 10)
  else none

/-- The single-character JSON string escapes. -/
def jsonSimpleEscape (e : Char) : Option Char :=
  if e == '"' then some '"'
  else if e == '\\' then some '\\'
  else if e == '/' then some '/'
  else if e == 'b' then some (Char.ofNat 8)
  else if e == 'f' then some (Char.ofNat 12)
  else if e == 'n' then some '\n'
  else if e == 'r' then some '\r'
  else if e == 't' then some '\t'
  else none

/-- Body of a JSON string literal, after the opening quote: returns the
decoded characters and the input after the closing quote.  `\uXXXX` escapes
that form a surrogate pair are combined; a lone surrogate becomes U+FFFD
(Lean's `Char` holds scalar values only, where a JavaScript string would keep
the lone surrogate).  Raw control characters are rejected, as `JSON.parse`
rejects them. -/
def parseJsonStringBody : Nat → List Char → Option (List Char × List Char)
  | 0, _ => none
  | fuel + 1, cs =>
    match cs with
    | [] => none
    | c :: rest =>
      if c == '"' then some ([], rest)
      else if c == '\\' then
        match rest with
        | [] => none
        | e :: rest2 =>
          if e == 'u' then
            match rest2 with
            | h1 :: h2 :: h3 :: h4 :: rest3 =>
              match hexVal h1, hexVal h2, hexVal h3, hexVal h4 with
              | some a, some b, some c2, some d =>
                let n := ((a * 16 + b) * 16 + c2) * 16 + d
                if 0xD800 ≤ n ∧ n ≤ 0xDBFF then
                  match rest3 with
                  | '\\' :: 'u' :: g1 :: g2 :: g3 :: g4 :: rest4 =>
                    match hexVal g1, hexVal g2, hexVal g3, hexVal g4 with
                    | some p1, some p2, some p3, some p4 =>
                      let m := ((p1 * 16 + p2) * 16 + p3) * 16 + p4
                      if 0xDC00 ≤ m ∧ m ≤ 0xDFFF then
                        (parseJsonStringBody fuel rest4).map
                          (fun q =>
                            (Char.ofNat (0x10000 + (n - 0xD800) * 0x400 + (m - 0xDC00)) :: q.1,
                              q.2))
                      else
                        (parseJsonStringBody fuel rest3).map
                          (fun q => (Char.ofNat 0xFFFD :: q.1, q.2))
                    | _, _, _, _ =>
                      (parseJsonStringBody fuel rest3).map
                        (fun q => (Char.ofNat 0xFFFD :: q.1, q.2))
                  | _ =>
                    (parseJsonStringBody fuel rest3).map
                      (fun q => (Char.ofNat 0xFFFD :: q.1, q.2))
                else if 0xDC00 ≤ n ∧ n ≤ 0xDFFF then
                  (parseJsonStringBody fuel rest3).map
                    (fun q => (Char.ofNat 0xFFFD :: q.1, q.2))
                else
                  (parseJsonStringBody fuel rest3).map
                    (fun q => (Char.ofNat n :: q.1, q.2))
              | _, _, _, _ => none
            | _ => none
          else
            match jsonSimpleEscape e with
            | some d =>
              (parseJsonStringBody fuel rest2).map (fun q => (d :: q.1, q.2))
            | none => none
      else if c.toNat < 32 then none
      else (parseJsonStringBody fuel rest).map (fun q => (c :: q.1, q.2))

/-- Fraction and exponent part of a JSON number, given its sign and integer
part; yields the rational value and the remaining input. -/
def parseJsonFracExp (neg : Bool) (intPart : Nat) (cs : List Char) :
    Option (Rat × List Char) :=
  let fracStep : Option (List Char × List Char) :=
    match cs with
    | '.' :: r =>
      let p := takeDigits r
      if p.1 = [] then none else some (p.1, p.2)
    | _ => some ([], cs)
  match fracStep with
  | none => none
  | some (fd, cs2) =>
    let expStep : Option (Int × List Char) :=
      match cs2 with
      | e :: r =>
        if e == 'e' || e == 'E' then
          let signedRest : Int × List Char :=
            match r with
            | '+' :: r3 => (1, r3)
            | '-' :: r3 => (-1, r3)
            | _ => (1, r)
          let p := takeDigits signedRest.2
          if p.1 = [] then none
          else some (signedRest.1 * (digitsToNat p.1 : Int), p.2)
        else some (0, cs2)
      | [] => some (0, cs2)
    match expStep with
    | none => none
    | some (ex, cs3) =>
      let mant : Rat :=
        (intPart : Rat) + (digitsToNat fd : Rat) / ((10 : Rat) ^ fd.length)
      some ((if neg then -mant else mant) * (10 : Rat) ^ ex, cs3)

/-- A JSON number: optional minus, integer part `0` or a nonzero-led digit
run, optional fraction and exponent. -/
def parseJsonNumber (cs : List Char) : Option (Rat × List Char) :=
  let signed : Bool × List Char :=
    match cs with
    | '-' :: r => (true, r)
    | _ => (false, cs)
  match signed.2 with
  | [] => none
  | c :: r =>
    if c == '0' then parseJsonFracExp signed.1 0 r
    else if c.isDigit then
      let p := takeDigits r
      parseJsonFracExp signed.1 (digitsToNat (c :: p.1)) p.2
    else none

/-- Consume an exact literal. -/
def expectLit : List Char → List Char → Option (List Char)
  | [], rest => some rest
  | l :: ls, c :: rest => if c == l then expectLit ls rest else none
  | _ :: _, [] => none

mutual

/-- One JSON value, after optional whitespace. -/
def parseJsonValue : Nat → List Char → Option (Json × List Char)
  | 0, _ => none
  | fuel + 1, cs =>
    match skipJsonWs cs with
    | [] => none
    | c :: rest =>
      if c == lbraceChar then parseJsonMembersStart fuel rest
      else if c == '[' then parseJsonElemsStart fuel rest
      else if c == '"' then
        (parseJsonStringBody fuel rest).map
          (fun p => (Json.str (String.mk p.1), p.2))
      else if c == 't' then
        (expectLit ['r', 'u', 'e'] rest).map (fun r => (Json.bool true, r))
      else if c == 'f' then
        (expectLit ['a', 'l', 's', 'e'] rest).map (fun r => (Json.bool false, r))
      else if c == 'n' then
        (expectLit ['u', 'l', 'l'] rest).map (fun r => (Json.null, r))
      else if c == '-' || c.isDigit then
        (parseJsonNumber (c :: rest)).map (fun p => (Json.num p.1, p.2))
      else none

/-- Array body after `[`: either an immediate `]` or an element list. -/
def parseJsonElemsStart : Nat → List Char → Option (Json × List Char)
  | 0, _ => none
  | fuel + 1, cs =>
    match skipJsonWs cs with
    | ']' :: rest => some (Json.arr [], rest)
    | cs2 => parseJsonElems fuel cs2 []

/-- Comma-separated array elements, then `]`. -/
def parseJsonElems : Nat → List Char → List Json → Option (Json × List Char)
  | 0, _, _ => none
  | fuel + 1, cs, acc =>
    match parseJsonValue fuel cs with
    | none => none
    | some (v, rest) =>
      match skipJsonWs rest with
      | ',' :: rest2 => parseJsonElems fuel rest2 (acc ++ [v])
      | ']' :: rest2 => some (Json.arr (acc ++ [v]), rest2)
      | _ => none

/-- Object body after an opening brace: either an immediate closing brace or
a member list. -/
def parseJsonMembersStart : Nat → List Char → Option (Json × List Char)
  | 0, _ => none
  | fuel + 1, cs =>
    match skipJsonWs cs with
    | [] => none
    | c :: rest =>
      if c == rbraceChar then some (Json.obj [], rest)
      else parseJsonMembers fuel (c :: rest) []

/-- Comma-separated `"key": value` members, then a closing brace. -/
def parseJsonMembers : Nat → List Char → List (String × Json) →
    Option (Json × List Char)
  | 0, _, _ => none
  | fuel + 1, cs, acc =>
    match skipJsonWs cs with
    | '"' :: rest =>
      match parseJsonStringBody fuel rest with
      | none => none
      | some (key, rest2) =>
        match skipJsonWs rest2 with
        | ':' :: rest3 =>
          match parseJsonValue fuel rest3 with
          | none => none
          | some (v, rest4) =>
            match skipJsonWs rest4 with
            | ',' :: rest5 =>
              parseJsonMembers fuel rest5 (acc ++ [(String.mk key, v)])
            | c :: rest5 =>
              if c == rbraceChar then
                some (Json.obj (acc ++ [(String.mk key, v)]), rest5)
              else none
            | [] => none
        | _ => none
    | _ => none

end

/-- `JSON.parse`: one value, with only whitespace allowed around it.  The
fuel is ample: every parsing step consumes input within a bounded number of
recursive calls, so `8 * (length + 1)` steps never run out on any input. -/
def Json.parse (s : String) : Option Json :=
  match parseJsonValue (8 * (s.length + 1)) s.data with
  | some (v, rest) => if skipJsonWs rest = [] then some v else none
  | none => none

/- ### Template-literal stringification of parsed values -/

/-- Number-to-string conversion: integral values print in decimal, as
JavaScript prints every integer of the error payload; the printing of
non-integral rationals stands in for JavaScript float formatting, on which
nothing here depends. -/
def jsNumToString (q : Rat) : String :=
  if q.den == 1 then toString q.num else toString q

mutual

/-- JavaScript string conversion as a template literal performs it on a
parsed JSON value: strings pass through, `null` prints `null`, arrays join
their elements with commas (a `null` element prints empty), objects print
`[object Object]`. -/
def jsToString : Json → String
  | .null => "null"
  | .bool true => "true"
  | .bool false => "false"
  | .num q => jsNumToString q
  | .str s => s
  | .arr l => jsArrayJoin l
  | .obj _ => "[object Object]"

/-- `Array.prototype.join(",")` on parsed elements. -/
def jsArrayJoin : List Json → String
  | [] => ""
  | [Json.null] => ""
  | [x] => jsToString x
  | Json.null :: xs => "," ++ jsArrayJoin xs
  | x :: xs => jsToString x ++ "," ++ jsArrayJoin xs

end

/-- Template interpolation of a possibly-`undefined` property value. -/
def jsFieldToString : Option Json → String
  | none => "undefined"
  | some v => jsToString v

/-- `row.idx ?? ''` interpolated: `null` and `undefined` become the empty
string, anything else its string conversion. -/
def jsNullishEmpty : Option Json → String
  | none => ""
  | some Json.null => ""
  | some v => jsToString v

/-- Models the host framework's `frappe.utils.escape_html` (framework code,
not part of this repository): the string conversion of the argument with the
HTML-special characters replaced by entities. -/
def escapeHtmlChar (c : Char) : String :=
  if c = '&' then "&amp;"
  else if c = '<' then "&lt;"
  else if c = '>' then "&gt;"
  else if c = '"' then "&quot;"
  else if c = aposChar then "&#39;"
  else if c = btickChar then "&#x60;"
  else if c = '=' then "&#x3D;"
  else if c = '/' then "&#x2F;"
  else String.singleton c

/-- HTML-escape a string (see `escapeHtmlChar`). -/
def escape_html (s : String) : String :=
  strConcat (s.data.map escapeHtmlChar)

/- ### The error-table renderers

Variant A is the `refresh` handler of
`ecommerce_bill_import.js` (lines 95-144): a duplicate-filter checkbox, a
table whose rows carry a `duplicate-error-N` or `other-error-N` class, and a
toggle script.  Variant B is the `refresh` handler of the script without the
checkbox (`src/unnamed/part_001`, lines 49-66).  Results are `Except`-valued:
`.error` marks a `TypeError` the browser would raise (reading a property of a
`null` row, or calling `.includes` on a truthy non-string `message`). -/

/-- Lines 112-115: `row.message && (row.message.includes('Duplicate entry')
|| row.message.includes('duplicate entry'))`. -/
def rowIsDuplicate (row : Json) : Except String Bool :=
  match jsGetField row "message" with
  | .error e => .error e
  | .ok m =>
    if jsOptTruthy m then
      match m with
      | some (Json.str s) =>
        .ok (jsIncludes s "Duplicate entry" || jsIncludes s "duplicate entry")
      | _ => .error "TypeError: row.message.includes is not a function"
    else .ok false

/-- Variant A, first cell: `${row.idx ?? ''}`. -/
def idxCellA (row : Json) : Except String String :=
  (jsGetField row "idx").map jsNullishEmpty

/-- Variant A, second cell: `${row.invoice_id}`. -/
def invoiceCellA (row : Json) : Except String String :=
  (jsGetField row "invoice_id").map jsFieldToString

/-- Variant A, third cell: `${row.event}`. -/
def eventCellA (row : Json) : Except String String :=
  (jsGetField row "event").map jsFieldToString

/-- Variant A, fourth cell: `${frappe.utils.escape_html(row.message)}`. -/
def messageCellA (row : Json) : Except String String :=
  (jsGetField row "message").map (fun m => escape_html (jsFieldToString m))

/-- The four cell contents of variant A's row, in template order. -/
def rowCellsA (row : Json) : Except String (List String) := do
  let c1 ← idxCellA row
  let c2 ← invoiceCellA row
  let c3 ← eventCellA row
  let c4 ← messageCellA row
  return [c1, c2, c3, c4]

/-- One `<tr>` of variant A (lines 110-124): the duplicate check picks the
row class, then the template interpolates the four cells. -/
def renderRowA (uid : Nat) (row : Json) : Except String String := do
  let isDup ← rowIsDuplicate row
  let rowClass :=
    if isDup then "duplicate-error-" ++ Nat.repr uid
    else "other-error-" ++ Nat.repr uid
  let c1 ← idxCellA row
  let c2 ← invoiceCellA row
  let c3 ← eventCellA row
  let c4 ← messageCellA row
  return "<tr class=\"" ++ rowClass ++ "\">\n\t\t\t\t\t<td>" ++ c1 ++
    "</td>\n\t\t\t\t\t<td>" ++ c2 ++ "</td>\n\t\t\t\t\t<td>" ++ c3 ++
    "</td>\n\t\t\t\t\t<td style=\"color:red;\">" ++ c4 ++
    "</td>\n\t\t\t\t</tr>"

/-- Variant A's body: `error.forEach(row => { html += ... })`. -/
def renderBodyA (uid : Nat) (rows : List Json) : Except String String :=
  rows.foldlM (fun acc row => (renderRowA uid row).map (fun h => acc ++ h)) ""

/-- Variant A's opening markup (lines 95-108), with `${uniqueId}`
interpolated at its three occurrences. -/
def errorTableHeaderA (uid : Nat) : String :=
  "\n\t\t\t\t<div style=\"margin-bottom: 10px;\">\n\t\t\t\t\t<label style=\"cursor: pointer; user-select: none;\">\n\t\t\t\t\t\t<input type=\"checkbox\" id=\"hide_duplicates_" ++
  Nat.repr uid ++ "\" onchange=\"toggleDuplicateErrors_" ++ Nat.repr uid ++
  "()\" style=\"margin-right: 8px;\">\n\t\t\t\t\t\t<span>Hide Duplicate Entry Errors</span>\n\t\t\t\t\t</label>\n\t\t\t\t</div>\n\t\t\t\t<table class=\"table table-bordered\" id=\"error_table_" ++
  Nat.repr uid ++
  "\">\n\t\t\t\t<thead><tr>\n\t\t\t\t\t<th>Idx</th>\n\t\t\t\t\t<th>Invoice ID</th>\n\t\t\t\t\t<th>Event</th>\n\t\t\t\t\t<th>Error Message</th>\n\t\t\t\t</tr></thead><tbody>"

/-- Variant A's toggle script block (lines 129-144). -/
def toggleScriptHtmlA (uid : Nat) : String :=
  "\n\t\t\t\t<script>\n\t\t\t\t\tfunction toggleDuplicateErrors_" ++ Nat.repr uid ++
  "() \x7b\n\t\t\t\t\t\tvar checkbox = document.getElementById(\x27hide_duplicates_" ++
  Nat.repr uid ++
  "\x27);\n\t\t\t\t\t\tvar duplicateRows = document.getElementsByClassName(\x27duplicate-error-" ++
  Nat.repr uid ++
  "\x27);\n\n\t\t\t\t\t\tfor (var i = 0; i < duplicateRows.length; i++) \x7b\n\t\t\t\t\t\t\tif (checkbox.checked) \x7b\n\t\t\t\t\t\t\t\tduplicateRows[i].style.display = \x27none\x27;\n\t\t\t\t\t\t\t\x7d else \x7b\n\t\t\t\t\t\t\t\tduplicateRows[i].style.display = \x27\x27;\n\t\t\t\t\t\t\t\x7d\n\t\t\t\t\t\t\x7d\n\t\t\t\t\t\x7d\n\t\t\t\t</script>\n\t\t\t"

/-- The complete HTML variant A writes into the `error_html` wrapper. -/
def renderErrorHtmlA (uid : Nat) (rows : List Json) : Except String String := do
  let body ← renderBodyA uid rows
  return errorTableHeaderA uid ++ body ++ "</tbody></table>" ++ toggleScriptHtmlA uid

/-- Variant B, first cell: `${row.idx ?? ''}`. -/
def idxCellB (row : Json) : Except String String :=
  (jsGetField row "idx").map jsNullishEmpty

/-- Variant B, second cell: `${row.invoice_id}`. -/
def invoiceCellB (row : Json) : Except String String :=
  (jsGetField row "invoice_id").map jsFieldToString

/-- Variant B, third cell: `${row.event}`. -/
def eventCellB (row : Json) : Except String String :=
  (jsGetField row "event").map jsFieldToString

/-- Variant B, fourth cell: `${frappe.utils.escape_html(row.message)}`. -/
def messageCellB (row : Json) : Except String String :=
  (jsGetField row "message").map (fun m => escape_html (jsFieldToString m))

/-- The four cell contents of variant B's row, in template order. -/
def rowCellsB (row : Json) : Except String (List String) := do
  let c1 ← idxCellB row
  let c2 ← invoiceCellB row
  let c3 ← eventCellB row
  let c4 ← messageCellB row
  return [c1, c2, c3, c4]

/-- One `<tr>` of variant B (`src/unnamed/part_001`, lines 57-63). -/
def renderRowB (row : Json) : Except String String := do
  let c1 ← idxCellB row
  let c2 ← invoiceCellB row
  let c3 ← eventCellB row
  let c4 ← messageCellB row
  return "<tr>\n\t\t\t\t\t<td>" ++ c1 ++ "</td>\n\t\t\t\t\t<td>" ++ c2 ++
    "</td>\n\t\t\t\t\t<td>" ++ c3 ++ "</td>\n\t\t\t\t\t<td style=\"color:red;\">" ++
    c4 ++ "</td>\n\t\t\t\t</tr>"

/-- Variant B's body loop. -/
def renderBodyB (rows : List Json) : Except String String :=
  rows.foldlM (fun acc row => (renderRowB row).map (fun h => acc ++ h)) ""

/-- The complete HTML variant B writes into the wrapper. -/
def renderErrorHtmlB (rows : List Json) : Except String String := do
  let body ← renderBodyB rows
  return "<table class=\"table table-bordered\">\n\t\t\t\t<thead><tr>\n\t\t\t\t\t<th>Idx</th>\n\t\t\t\t\t<th>Invoice ID</th>\n\t\t\t\t\t<th>Event</th>\n\t\t\t\t\t<th>Error Message</th>\n\t\t\t\t</tr></thead><tbody>" ++
    body ++ "</tbody></table>"

/- ### The `error_json` section of the `refresh` handler -/

/-- What the `error_json` block of `refresh` leaves behind: the
`frappe.msgprint` dialogs it raised, the `error_html` wrapper content, and
whether an uncaught `TypeError` escaped the handler. -/
structure RefreshErrorOutcome where
  msgprints : List String
  error_html : String
  wrote_error_html : Bool
  threw : Bool
deriving Repr, DecidableEq

/-- Lines 81-148 of `ecommerce_bill_import.js`: a falsy `error_json` skips
the block; a failed `JSON.parse` raises the dialog and returns; a parsed
array is rendered into the wrapper; a parsed non-array makes `error.forEach`
throw before anything is written. -/
def refreshErrorSection (uid : Nat) (error_json prior : String) :
    RefreshErrorOutcome :=
  if error_json == "" then
    { msgprints := [], error_html := prior, wrote_error_html := false,
      threw := false }
  else
    match Json.parse error_json with
    | none =>
      { msgprints := ["Error parsing error_json. Please check format."],
        error_html := prior, wrote_error_html := false, threw := false }
    | some (Json.arr rows) =>
      match renderErrorHtmlA uid rows with
      | .ok html =>
        { msgprints := [], error_html := html, wrote_error_html := true,
          threw := false }
      | .error _ =>
        { msgprints := [], error_html := prior, wrote_error_html := false,
          threw := true }
    | some _ =>
      { msgprints := [], error_html := prior, wrote_error_html := false,
        threw := true }

/- ### The rendered rows and the `toggleDuplicateErrors` script -/

/-- A rendered `<tr>` as the toggle script sees it: its class
(`duplicate-error-N` when `dupClass`, `other-error-N` otherwise) and its
inline `style.display` value (the default is the empty string). -/
structure ErrorTableRow where
  dupClass : Bool
  display : String
deriving Repr, DecidableEq, Inhabited

/-- The script `toggleDuplicateErrors_N` (lines 131-142): walks the elements
of class `duplicate-error-N` and sets `display` to `'none'` when the checkbox
is checked, to `''` otherwise; no other element is touched. -/
def toggleDuplicateErrors (checked : Bool) (rows : List ErrorTableRow) :
    List ErrorTableRow :=
  rows.map fun r =>
    if r.dupClass then { r with display := if checked then "none" else "" }
    else r

/-- The DOM row the renderer produces for a record whose `message` field
holds the given string: the class comes from the duplicate check of lines
112-116, the display starts at its default. -/
def renderedDomRow (message : String) : ErrorTableRow :=
  { dupClass := (!(message == "")) &&
      (jsIncludes message "Duplicate entry" || jsIncludes message "duplicate entry"),
    display := "" }

/- ### The Start Import button callback (lines 14-21) -/

/-- What the `create_invoice` callback does with the response. -/
structure StartImportCallbackResult where
  error_html_refreshed : Bool
  doc_reloaded : Bool
deriving Repr, DecidableEq

/-- `callback: function(r) { if (r.message) { frm.refresh_field("error_html");
frm.reload_doc(); } }`: both effects run only on a truthy `r.message`. -/
def startImportCallback (message : Option Json) : StartImportCallbackResult :=
  if jsOptTruthy message then
    { error_html_refreshed := true, doc_reloaded := true }
  else
    { error_html_refreshed := false, doc_reloaded := false }

/- ### The `data_import_progress` realtime handler (lines 244-250) -/

/-- A `{progress, message}` payload of the realtime channel. -/
structure ProgressEvent where
  progress : Rat
  message : String

/-- The progress indicator after the handler ran: the
`frappe.show_progress("Invoice Creation", data.progress, 100, data.message)`
call it made, and whether `frappe.hide_progress()` dismissed the
indicator (`data.progress === 100`). -/
structure ProgressIndicatorState where
  calls : List (String × Rat × Nat × String)
  dismissed : Bool
deriving Repr, DecidableEq

/-- The `data_import_progress` handler. -/
def dataImportProgressHandler (data : ProgressEvent) : ProgressIndicatorState :=
  { calls := [("Invoice Creation", data.progress, 100, data.message)],
    dismissed := data.progress == 100 }

/- ### Delivery Note / Sales Invoice label toggles (`delivery_note.js`) -/

/-- A `.form-group` with its `label.control-label` text and visibility. -/
structure FormGroup where
  labelText : String
  visible : Bool
deriving Repr, DecidableEq, Inhabited

/-- The Sales Invoice `refresh`/`setup` handlers (lines 18-43): when
`custom_ecommerce_operator` is falsy, `$('label.control-label:contains("Name")')
.closest('.form-group').hide()` — every group whose label text contains
`Name` as a substring; when truthy, the same selection is shown. -/
def salesInvoiceNameToggle (opTruthy : Bool) (groups : List FormGroup) :
    List FormGroup :=
  if !opTruthy then
    groups.map fun g =>
      if jsIncludes g.labelText "Name" then { g with visible := false } else g
  else
    groups.map fun g =>
      if jsIncludes g.labelText "Name" then { g with visible := true } else g

/-- `toggleNameField` (lines 10-16): filters the labels whose trimmed text is
exactly `"Name"` and toggles their group to the truthiness of
`custom_ecommerce_operator`. -/
def toggleNameField (opTruthy : Bool) (groups : List FormGroup) :
    List FormGroup :=
  groups.map fun g =>
    if jsTrim g.labelText == "Name" then { g with visible := opTruthy } else g

/- ### Spec-side description of a rendered row (for the refinement claim) -/

/-- A row of the error payload as the spec describes it: an object record
whose `message` field is a string. -/
def isRecordRow (row : Json) : Prop :=
  (∃ fields, row = Json.obj fields) ∧
    ∃ s, jsLookup row "message" = some (Json.str s)

/-- Spec-side idx cell: the empty string when idx is null or undefined. -/
def specIdxCell : Option Json → String
  | none => ""
  | some Json.null => ""
  | some v => jsToString v

/-- Spec-side plain cell: the field's string conversion. -/
def specStrCell : Option Json → String
  | none => "undefined"
  | some v => jsToString v

/-- The four cells the spec describes: idx (empty when null/undefined),
invoice id, event, HTML-escaped message. -/
def specRowCells (row : Json) : List String :=
  [specIdxCell (jsLookup row "idx"), specStrCell (jsLookup row "invoice_id"),
    specStrCell (jsLookup row "event"),
    escape_html (specStrCell (jsLookup row "message"))]

/-- Spec-side duplicate classification of a record row. -/
def specRowIsDup (row : Json) : Bool :=
  match jsLookup row "message" with
  | some (Json.str s) =>
    jsIncludes s "Duplicate entry" || jsIncludes s "duplicate entry"
  | _ => false

/-- The HTML of one row as the spec describes variant A's output: the row
class from the duplicate classification, then the four cells. -/
def specRowHtmlA (uid : Nat) (row : Json) : String :=
  "<tr class=\"" ++
    (if specRowIsDup row then "duplicate-error-" ++ Nat.repr uid
      else "other-error-" ++ Nat.repr uid) ++
    "\">\n\t\t\t\t\t<td>" ++ specIdxCell (jsLookup row "idx") ++
    "</td>\n\t\t\t\t\t<td>" ++ specStrCell (jsLookup row "invoice_id") ++
    "</td>\n\t\t\t\t\t<td>" ++ specStrCell (jsLookup row "event") ++
    "</td>\n\t\t\t\t\t<td style=\"color:red;\">" ++
    escape_html (specStrCell (jsLookup row "message")) ++
    "</td>\n\t\t\t\t</tr>"

/-- The HTML of one row as the spec describes variant B's output: a plain
`<tr>` holding the same four cells. -/
def specRowHtmlB (row : Json) : String :=
  "<tr>\n\t\t\t\t\t<td>" ++ specIdxCell (jsLookup row "idx") ++
    "</td>\n\t\t\t\t\t<td>" ++ specStrCell (jsLookup row "invoice_id") ++
    "</td>\n\t\t\t\t\t<td>" ++ specStrCell (jsLookup row "event") ++
    "</td>\n\t\t\t\t\t<td style=\"color:red;\">" ++
    escape_html (specStrCell (jsLookup row "message")) ++
    "</td>\n\t\t\t\t</tr>"

/-- A concrete error record used by the witnesses. -/
def sampleRecordRow : Json :=
  Json.obj [("idx", Json.num 1), ("invoice_id", Json.str "INV-001"),
    ("event", Json.str "submit"), ("message", Json.str "Duplicate entry 9")]

/-- An error record with markup in its fields, for the escaping claim. -/
def mkErrorRecord (i inv ev m : String) : Json :=
  Json.obj [("idx", Json.str i), ("invoice_id", Json.str inv),
    ("event", Json.str ev), ("message", Json.str m)]

/- ### Shared helper lemmas -/

/-- Indexing a mapped list below its length applies the function to the
corresponding element. -/
theorem getD_map_of_lt {α β : Type} (f : α → β) (l : List α) (i : Nat) (d : β)
    (d' : α) (h : i < l.length) :
    (l.map f).getD i d = f (l.getD i d') := by
  induction l generalizing i with
  | nil => exact absurd h (Nat.not_lt_zero i)
  | cons x xs ih =>
    cases i with
    | zero => rfl
    | succ n => exact ih n (Nat.lt_of_succ_lt_succ h)

/- ### Claims about the platform-dependent visibility (C1, C3) -/

/-- Claim C1, amended: for the four known platforms, after the refresh
mapping callback or the `ecommerce_mapping` handler runs, each
platform-specific field group is visible iff the resolved platform equals
that group's platform; any platform value outside the four known ones leaves
the whole form state (visibility included) unchanged. -/
theorem c1_platform_visibility :
    ∀ (st : BillFormState) (platform : String),
      (knownPlatform platform = true →
        platformGroupsVisibleIff platform (refreshMappingCallback platform st) ∧
        platformGroupsVisibleIff platform (ecommerceMappingHandler platform st)) ∧
      (knownPlatform platform = false →
        refreshMappingCallback platform st = st ∧
        ecommerceMappingHandler platform st = st) := by
  intro st p
  constructor
  · intro h
    simp only [knownPlatform, Bool.or_eq_true, beq_iff_eq] at h
    rcases h with ((h | h) | h) | h <;> subst h <;>
      exact ⟨by simp [refreshMappingCallback, platformGroupsVisibleIff],
             by simp [ecommerceMappingHandler, platformGroupsVisibleIff]⟩
  · intro h
    simp only [knownPlatform, Bool.or_eq_false_iff, beq_eq_false_iff_ne, ne_eq] at h
    obtain ⟨⟨⟨h1, h2⟩, h3⟩, h4⟩ := h
    constructor
    · simp [refreshMappingCallback, h1, h2, h3, h4]
    · simp [ecommerceMappingHandler, h1, h2, h3, h4]

/-- Claim C1, counterexample to the original statement: select Amazon (which
shows `amazon_type`), then refresh with a mapping whose platform is the
unknown value `"Meesho"`; `amazon_type` stays visible although the resolved
platform does not equal `"Amazon"`, so the if-and-only-if fails outside the
four known platforms. -/
theorem c1_platform_visibility_cex :
    (refreshMappingCallback "Meesho"
        (refreshMappingCallback "Amazon" initBillFormState)).amazon_type_hidden = false ∧
    ("Meesho" : String) ≠ "Amazon" :=
  ⟨rfl, by decide⟩

/-- Claim C3, amended: the `ecommerce_mapping` handler clears `amazon_type`
(and hides it) exactly in its CRED, Flipkart and Jiomart branches; in the
Amazon branch it hides the other platform groups but clears no stored value;
for a platform outside the four known ones it changes nothing at all. -/
theorem c3_mapping_change_clears :
    ∀ (st : BillFormState) (platform : String),
      ((platform = "CRED" ∨ platform = "Flipkart" ∨ platform = "Jiomart") →
        (ecommerceMappingHandler platform st).amazon_type = "" ∧
        (ecommerceMappingHandler platform st).amazon_type_hidden = true) ∧
      (platform = "Amazon" →
        (ecommerceMappingHandler platform st).cred_attach_hidden = true ∧
        (ecommerceMappingHandler platform st).cred_hidden = true ∧
        (ecommerceMappingHandler platform st).cred_items_hidden = true ∧
        (ecommerceMappingHandler platform st).flipkart_attach_hidden = true ∧
        (ecommerceMappingHandler platform st).flipkart_items_hidden = true ∧
        (ecommerceMappingHandler platform st).jio_mart_attach_hidden = true ∧
        (ecommerceMappingHandler platform st).jio_mart_items_hidden = true ∧
        (ecommerceMappingHandler platform st).amazon_type = st.amazon_type ∧
        (ecommerceMappingHandler platform st).cred_attach = st.cred_attach ∧
        (ecommerceMappingHandler platform st).cred = st.cred ∧
        (ecommerceMappingHandler platform st).flipkart_attach = st.flipkart_attach ∧
        (ecommerceMappingHandler platform st).jio_mart_attach = st.jio_mart_attach) ∧
      (knownPlatform platform = false → ecommerceMappingHandler platform st = st) := by
  intro st p
  refine ⟨fun h => ?_, fun h => ?_, fun h => ?_⟩
  · rcases h with h | h | h <;> subst h <;> simp [ecommerceMappingHandler]
  · subst h; simp [ecommerceMappingHandler]
  · simp only [knownPlatform, Bool.or_eq_false_iff, beq_eq_false_iff_ne, ne_eq] at h
    obtain ⟨⟨⟨h1, h2⟩, h3⟩, h4⟩ := h
    simp [ecommerceMappingHandler, h1, h2, h3, h4]

/-- Claim C3, counterexample to the original statement: switching to the
unknown platform `"Meesho"` leaves `amazon_type = "FBA"` although the new
platform is not Amazon, and switching from CRED to Amazon hides the CRED
fields without clearing the stored `cred` value. -/
theorem c3_mapping_change_clears_cex :
    (ecommerceMappingHandler "Meesho"
        { initBillFormState with amazon_type := "FBA" }).amazon_type = "FBA" ∧
    ("Meesho" : String) ≠ "Amazon" ∧
    (ecommerceMappingHandler "Amazon" { initBillFormState with
        cred := "CRED-FILE-001", cred_hidden := false }).cred = "CRED-FILE-001" ∧
    (ecommerceMappingHandler "Amazon" { initBillFormState with
        cred := "CRED-FILE-001", cred_hidden := false }).cred_hidden = true :=
  ⟨rfl, by decide, rfl, rfl⟩

/- ### Claim about the progress handler (C5) -/

/-- Claim C5: every `data_import_progress` payload makes the handler show the
progress indicator with the payload's progress value and message, and the
indicator is dismissed iff the progress value equals 100. -/
theorem c5_progress_dismissed_iff_100 :
    ∀ data : ProgressEvent,
      (dataImportProgressHandler data).calls =
        [("Invoice Creation", data.progress, 100, data.message)] ∧
      ((dataImportProgressHandler data).dismissed = true ↔ data.progress = 100) := by
  intro d
  refine ⟨rfl, ?_⟩
  simp [dataImportProgressHandler]

/- ### Claim about the Start Import callback (C6) -/

/-- Claim C6, amended: the `create_invoice` callback reloads the document
(and refreshes the `error_html` field) iff the returned `r.message` is
truthy; on a falsy message it does nothing. -/
theorem c6_reload_iff_truthy_message :
    ∀ message : Option Json,
      (startImportCallback message).doc_reloaded = jsOptTruthy message ∧
      (startImportCallback message).error_html_refreshed = jsOptTruthy message := by
  intro m
  unfold startImportCallback
  cases h : jsOptTruthy m <;> simp [h]

/-- Claim C6, counterexample to the original statement: a falsy (absent)
`r.message` leaves the document unreloaded, while a truthy one reloads it,
so the callback does not reload regardless of the message. -/
theorem c6_reload_iff_truthy_message_cex :
    (startImportCallback none).doc_reloaded = false ∧
    (startImportCallback (some (Json.bool true))).doc_reloaded = true :=
  ⟨rfl, rfl⟩

/- ### Claim about the duplicate-filter toggle (C2) -/

/-- Claim C2, amended: checking the checkbox hides (sets `display` to
`none`) exactly the rows whose message is nonempty and contains
`Duplicate entry` or `duplicate entry` as an exact, case-sensitive
substring — the two capitalizations the code tests, not arbitrary
capitalization; unchecking restores the default display; a row not so
classified is never modified by the toggle. -/
theorem c2_duplicate_toggle (msgs : List String) (checked : Bool) (i : Nat)
    (h : i < msgs.length) :
    ((toggleDuplicateErrors checked (msgs.map renderedDomRow)).getD i ⟨false, ""⟩).display =
      (if ((!(msgs.getD i "" == "")) &&
            (jsIncludes (msgs.getD i "") "Duplicate entry" ||
              jsIncludes (msgs.getD i "") "duplicate entry")) && checked
        then "none" else "") ∧
    ((renderedDomRow (msgs.getD i "")).dupClass = false →
      (toggleDuplicateErrors checked (msgs.map renderedDomRow)).getD i ⟨false, ""⟩ =
        renderedDomRow (msgs.getD i "")) := by
  have hlen : i < (msgs.map renderedDomRow).length := by simpa using h
  constructor
  · rw [toggleDuplicateErrors, getD_map_of_lt _ _ i _ (renderedDomRow "") hlen,
      getD_map_of_lt _ _ i _ "" h]
    simp only [renderedDomRow]
    cases hd : (!(msgs.getD i "" == "")) &&
        (jsIncludes (msgs.getD i "") "Duplicate entry" ||
          jsIncludes (msgs.getD i "") "duplicate entry") <;>
      cases checked <;> simp [hd]
  · intro hfalse
    rw [toggleDuplicateErrors, getD_map_of_lt _ _ i _ (renderedDomRow "") hlen,
      getD_map_of_lt _ _ i _ "" h,
      if_neg (by rw [hfalse]; exact Bool.false_ne_true)]

/-- Claim C2, counterexample to the original statement: the message
`ERROR: DUPLICATE ENTRY FOR KEY` contains `duplicate entry` under
case-insensitive matching, yet checking the checkbox leaves its row visible
(display stays at the default), because the code only tests the two exact
capitalizations. -/
theorem c2_duplicate_toggle_cex :
    jsIncludes (jsToLower "ERROR: DUPLICATE ENTRY FOR KEY") "duplicate entry" = true ∧
    ((toggleDuplicateErrors true
        [renderedDomRow "ERROR: DUPLICATE ENTRY FOR KEY"]).getD 0 ⟨false, ""⟩).display = "" :=
  ⟨by decide, rfl⟩

/-- Witness for `c2_duplicate_toggle` at a concrete row list. -/
theorem c2_duplicate_toggle_witness :
    ((toggleDuplicateErrors true
        (["Duplicate entry for key 2"].map renderedDomRow)).getD 0 ⟨false, ""⟩).display = "none" := by
  have h := (c2_duplicate_toggle ["Duplicate entry for key 2"] true 0 (by decide)).1
  exact h

/- ### Claim about the Name label toggles (C10) -/

/-- Claim C10: with `custom_ecommerce_operator` falsy, the Sales Invoice
handler hides every form group whose control label contains `Name` as a
substring (and shows them when truthy), while the Delivery Note handler
toggles exactly the groups whose trimmed label text equals `Name`, leaving
every other group untouched. -/
theorem c10_name_label_toggles (groups : List FormGroup) (opTruthy : Bool)
    (i : Nat) (h : i < groups.length) :
    (jsIncludes (groups.getD i default).labelText "Name" = true →
      ((salesInvoiceNameToggle false groups).getD i default).visible = false ∧
      ((salesInvoiceNameToggle true groups).getD i default).visible = true) ∧
    (jsIncludes (groups.getD i default).labelText "Name" = false →
      (salesInvoiceNameToggle false groups).getD i default = groups.getD i default ∧
      (salesInvoiceNameToggle true groups).getD i default = groups.getD i default) ∧
    ((jsTrim (groups.getD i default).labelText == "Name") = true →
      ((toggleNameField opTruthy groups).getD i default).visible = opTruthy) ∧
    ((jsTrim (groups.getD i default).labelText == "Name") = false →
      (toggleNameField opTruthy groups).getD i default = groups.getD i default) := by
  refine ⟨fun hn => ⟨?_, ?_⟩, fun hn => ⟨?_, ?_⟩, fun ht => ?_, fun ht => ?_⟩
  · rw [salesInvoiceNameToggle, if_pos (by decide), getD_map_of_lt _ _ i _ default h,
      if_pos hn]
  · rw [salesInvoiceNameToggle, if_neg (by decide), getD_map_of_lt _ _ i _ default h,
      if_pos hn]
  · rw [salesInvoiceNameToggle, if_pos (by decide), getD_map_of_lt _ _ i _ default h,
      if_neg (by rw [hn]; exact Bool.false_ne_true)]
  · rw [salesInvoiceNameToggle, if_neg (by decide), getD_map_of_lt _ _ i _ default h,
      if_neg (by rw [hn]; exact Bool.false_ne_true)]
  · rw [toggleNameField, getD_map_of_lt _ _ i _ default h, if_pos ht]
  · rw [toggleNameField, getD_map_of_lt _ _ i _ default h,
      if_neg (by rw [ht]; exact Bool.false_ne_true)]

/-- Witness for `c10_name_label_toggles`: the label `Customer Name` contains
`Name` without being equal to it, so the Sales Invoice handler hides its
group while the Delivery Note handler leaves it untouched. -/
theorem c10_name_label_toggles_witness :
    ((salesInvoiceNameToggle false [⟨"Customer Name", true⟩]).getD 0 default).visible = false ∧
    ((toggleNameField true [⟨"Customer Name", false⟩]).getD 0 default) = ⟨"Customer Name", false⟩ := by
  constructor
  · exact ((c10_name_label_toggles [⟨"Customer Name", true⟩] false 0 (by decide)).1 (by decide)).1
  · exact (c10_name_label_toggles [⟨"Customer Name", false⟩] true 0 (by decide)).2.2.2 (by decide)

/- ### Claims about the error_json parse path (C4, C9) -/

/-- Claim C4, amended: for every nonempty `error_json` string that
`JSON.parse` rejects, `refresh` raises exactly the parse-error dialog and
returns without an uncaught exception; for every string that parses, no such
dialog is shown.  (The empty string is falsy, so the whole block — dialog
included — is skipped; see the counterexample.) -/
theorem c4_parse_error_dialog (uid : Nat) (s prior : String) :
    (s ≠ "" → Json.parse s = none →
      (refreshErrorSection uid s prior).msgprints =
        ["Error parsing error_json. Please check format."] ∧
      (refreshErrorSection uid s prior).threw = false) ∧
    (∀ j, Json.parse s = some j →
      (refreshErrorSection uid s prior).msgprints = []) := by
  constructor
  · intro hne hp
    rw [refreshErrorSection, if_neg (by simp [hne]), hp]
    exact ⟨rfl, rfl⟩
  · intro j hp
    by_cases hs : s = ""
    · subst hs
      have hnone : Json.parse "" = none := rfl
      rw [hnone] at hp
      exact Option.noConfusion hp
    · rw [refreshErrorSection, if_neg (by simp [hs]), hp]
      cases j with
      | arr rows => rcases hE : renderErrorHtmlA uid rows with e | html <;> simp [hE]
      | null => rfl
      | bool b => rfl
      | num q => rfl
      | str t => rfl
      | obj fs => rfl

/-- Claim C4, counterexample to the original statement: the empty string is
not valid JSON (`JSON.parse("")` throws), yet storing it in `error_json`
shows no dialog, because the falsy check skips the block before parsing. -/
theorem c4_parse_error_dialog_cex :
    Json.parse "" = none ∧ (refreshErrorSection 0 "" "").msgprints = [] :=
  ⟨rfl, rfl⟩

/-- Claim C9: whenever `JSON.parse` fails on the stored `error_json`, the
handler returns before writing the `error_html` wrapper, so the wrapper
content is exactly what it was before the handler ran. -/
theorem c9_error_html_unchanged_on_parse_failure (uid : Nat) (s prior : String)
    (h : Json.parse s = none) :
    (refreshErrorSection uid s prior).error_html = prior ∧
    (refreshErrorSection uid s prior).wrote_error_html = false := by
  by_cases hs : s = ""
  · subst hs
    exact ⟨rfl, rfl⟩
  · rw [refreshErrorSection, if_neg (by simp [hs]), h]
    exact ⟨rfl, rfl⟩

/-- Witness for `c9_error_html_unchanged_on_parse_failure` at the malformed
payload consisting of a lone opening brace. -/
theorem c9_error_html_unchanged_witness :
    (refreshErrorSection 0 "\x7b" "old").error_html = "old" ∧
    (refreshErrorSection 0 "\x7b" "old").wrote_error_html = false :=
  c9_error_html_unchanged_on_parse_failure 0 "\x7b" "old" rfl

/- ### String lemmas for the renderer claims -/

/-- The characters of an appended string. -/
theorem strData_append (a b : String) : (a ++ b).data = a.data ++ b.data := by
  cases a
  cases b
  rfl

/-- String append is associative. -/
theorem strAppend_assoc (a b c : String) : a ++ b ++ c = a ++ (b ++ c) := by
  cases a with
  | mk d1 =>
    cases b with
    | mk d2 =>
      cases c with
      | mk d3 =>
        show String.mk (d1 ++ d2 ++ d3) = String.mk (d1 ++ (d2 ++ d3))
        rw [List.append_assoc]

/- ### Per-row lemmas for the renderer claims -/

/-- The `row.idx ?? ''` interpolation agrees with the spec-side idx cell. -/
theorem jsNullishEmpty_eq_specIdxCell (o : Option Json) :
    jsNullishEmpty o = specIdxCell o := by
  cases o with
  | none => rfl
  | some v => cases v <;> rfl

/-- Plain template interpolation agrees with the spec-side cell. -/
theorem jsFieldToString_eq_specStrCell (o : Option Json) :
    jsFieldToString o = specStrCell o := by
  cases o with
  | none => rfl
  | some v => rfl

/-- On a record row (object with string message), the duplicate check never
throws and computes the spec-side classification. -/
theorem rowIsDuplicate_record (row : Json) (h : isRecordRow row) :
    rowIsDuplicate row = .ok (specRowIsDup row) := by
  obtain ⟨⟨fs, rfl⟩, s, hs⟩ := h
  simp only [rowIsDuplicate, jsGetField, specRowIsDup, hs]
  by_cases h0 : s = ""
  · subst h0
    rfl
  · simp [jsOptTruthy, jsTruthy, h0]

/-- On a record row, variant A's cells are the spec-side cells. -/
theorem rowCellsA_record (row : Json) (h : isRecordRow row) :
    rowCellsA row = .ok (specRowCells row) := by
  obtain ⟨⟨fs, rfl⟩, _⟩ := h
  show Except.ok [jsNullishEmpty (jsLookup (Json.obj fs) "idx"),
      jsFieldToString (jsLookup (Json.obj fs) "invoice_id"),
      jsFieldToString (jsLookup (Json.obj fs) "event"),
      escape_html (jsFieldToString (jsLookup (Json.obj fs) "message"))] =
    Except.ok (specRowCells (Json.obj fs))
  rw [jsNullishEmpty_eq_specIdxCell, jsFieldToString_eq_specStrCell,
    jsFieldToString_eq_specStrCell, jsFieldToString_eq_specStrCell]
  rfl

/-- On a record row, variant B's cells are the spec-side cells. -/
theorem rowCellsB_record (row : Json) (h : isRecordRow row) :
    rowCellsB row = .ok (specRowCells row) := by
  obtain ⟨⟨fs, rfl⟩, _⟩ := h
  show Except.ok [jsNullishEmpty (jsLookup (Json.obj fs) "idx"),
      jsFieldToString (jsLookup (Json.obj fs) "invoice_id"),
      jsFieldToString (jsLookup (Json.obj fs) "event"),
      escape_html (jsFieldToString (jsLookup (Json.obj fs) "message"))] =
    Except.ok (specRowCells (Json.obj fs))
  rw [jsNullishEmpty_eq_specIdxCell, jsFieldToString_eq_specStrCell,
    jsFieldToString_eq_specStrCell, jsFieldToString_eq_specStrCell]
  rfl

/-- On a record row, variant B renders the spec-side row HTML. -/
theorem renderRowB_record (row : Json) (h : isRecordRow row) :
    renderRowB row = .ok (specRowHtmlB row) := by
  obtain ⟨⟨fs, rfl⟩, _⟩ := h
  show Except.ok ("<tr>\n\t\t\t\t\t<td>" ++ jsNullishEmpty (jsLookup (Json.obj fs) "idx") ++
      "</td>\n\t\t\t\t\t<td>" ++ jsFieldToString (jsLookup (Json.obj fs) "invoice_id") ++
      "</td>\n\t\t\t\t\t<td>" ++ jsFieldToString (jsLookup (Json.obj fs) "event") ++
      "</td>\n\t\t\t\t\t<td style=\"color:red;\">" ++
      escape_html (jsFieldToString (jsLookup (Json.obj fs) "message")) ++
      "</td>\n\t\t\t\t</tr>") =
    Except.ok (specRowHtmlB (Json.obj fs))
  rw [jsNullishEmpty_eq_specIdxCell, jsFieldToString_eq_specStrCell,
    jsFieldToString_eq_specStrCell, jsFieldToString_eq_specStrCell]
  rfl

/-- On a record row, variant A renders the spec-side row HTML. -/
theorem renderRowA_record (uid : Nat) (row : Json) (h : isRecordRow row) :
    renderRowA uid row = .ok (specRowHtmlA uid row) := by
  have hdup := rowIsDuplicate_record row h
  obtain ⟨⟨fs, rfl⟩, hmsg⟩ := h
  rw [renderRowA, hdup]
  show Except.ok ("<tr class=\"" ++
      (if specRowIsDup (Json.obj fs) then "duplicate-error-" ++ Nat.repr uid
        else "other-error-" ++ Nat.repr uid) ++
      "\">\n\t\t\t\t\t<td>" ++ jsNullishEmpty (jsLookup (Json.obj fs) "idx") ++
      "</td>\n\t\t\t\t\t<td>" ++ jsFieldToString (jsLookup (Json.obj fs) "invoice_id") ++
      "</td>\n\t\t\t\t\t<td>" ++ jsFieldToString (jsLookup (Json.obj fs) "event") ++
      "</td>\n\t\t\t\t\t<td style=\"color:red;\">" ++
      escape_html (jsFieldToString (jsLookup (Json.obj fs) "message")) ++
      "</td>\n\t\t\t\t</tr>") =
    Except.ok (specRowHtmlA uid (Json.obj fs))
  rw [jsNullishEmpty_eq_specIdxCell, jsFieldToString_eq_specStrCell,
    jsFieldToString_eq_specStrCell, jsFieldToString_eq_specStrCell]
  rfl

/-- The body accumulation loop: when every row renders, the fold produces the
concatenation of the per-row strings, in order. -/
theorem foldlM_render_ok (f : Json → Except String String) (g : Json → String)
    (rows : List Json) (init : String) (hf : ∀ r ∈ rows, f r = .ok (g r)) :
    List.foldlM (fun acc row => (f row).map (fun h => acc ++ h)) init rows =
      .ok (init ++ strConcat (rows.map g)) := by
  induction rows generalizing init with
  | nil =>
    show Except.ok init = Except.ok (init ++ strConcat [])
    rw [strConcat, String.append_empty]
  | cons x xs ih =>
    rw [List.foldlM_cons, hf x (List.mem_cons_self x xs)]
    show List.foldlM (fun acc row => (f row).map (fun h => acc ++ h)) (init ++ g x) xs =
      Except.ok (init ++ strConcat ((x :: xs).map g))
    rw [ih (init ++ g x) (fun r hr => hf r (List.mem_cons_of_mem x hr)),
      List.map_cons, strConcat, strAppend_assoc]

/- ### Claim about the agreement of the two renderers (C7) -/

/-- Claim C7: for every array of error records (objects with a string
message), each renderer variant produces exactly one body row per record, in
the array's order, and the two variants produce the same four cell contents
in the same order — idx (empty when null or undefined), invoice id, event,
and the escaped message — as the spec describes them. -/
theorem c7_renderers_agree (uid : Nat) (rows : List Json)
    (h : ∀ r ∈ rows, isRecordRow r) :
    renderBodyA uid rows = .ok (strConcat (rows.map (specRowHtmlA uid))) ∧
    renderBodyB rows = .ok (strConcat (rows.map specRowHtmlB)) ∧
    ∀ r ∈ rows, rowCellsA r = .ok (specRowCells r) ∧ rowCellsB r = .ok (specRowCells r) := by
  refine ⟨?_, ?_, fun r hr => ⟨rowCellsA_record r (h r hr), rowCellsB_record r (h r hr)⟩⟩
  · have hfold := foldlM_render_ok (renderRowA uid) (specRowHtmlA uid) rows ""
      (fun r hr => renderRowA_record uid r (h r hr))
    rw [renderBodyA, hfold, String.empty_append]
  · have hfold := foldlM_render_ok renderRowB specRowHtmlB rows ""
      (fun r hr => renderRowB_record r (h r hr))
    rw [renderBodyB, hfold, String.empty_append]

/-- Witness for `c7_renderers_agree` at a concrete one-record payload. -/
theorem c7_renderers_agree_witness :
    renderBodyB [sampleRecordRow] =
      .ok (strConcat ([sampleRecordRow].map specRowHtmlB)) :=
  (c7_renderers_agree 7 [sampleRecordRow] (by
    intro r hr
    rw [List.mem_singleton] at hr
    subst hr
    exact ⟨⟨_, rfl⟩, "Duplicate entry 9", rfl⟩)).2.1

/- ### Claim about escaping (C8) -/

/-- One escaped character never contains an angle bracket. -/
theorem escapeHtmlChar_no_angle (c : Char) :
    '<' ∉ (escapeHtmlChar c).data ∧ '>' ∉ (escapeHtmlChar c).data := by
  rw [escapeHtmlChar]
  split_ifs with h1 h2 h3 h4 h5 h6 h7 h8
  · exact ⟨by decide, by decide⟩
  · exact ⟨by decide, by decide⟩
  · exact ⟨by decide, by decide⟩
  · exact ⟨by decide, by decide⟩
  · exact ⟨by decide, by decide⟩
  · exact ⟨by decide, by decide⟩
  · exact ⟨by decide, by decide⟩
  · exact ⟨by decide, by decide⟩
  · constructor
    · intro hm
      exact h2 ((by simpa [String.singleton] using hm : Eq (α := Char) '<' c).symm)
    · intro hm
      exact h3 ((by simpa [String.singleton] using hm : Eq (α := Char) '>' c).symm)

/-- The escaped message never contains an angle bracket. -/
theorem escape_html_no_angle (s : String) :
    '<' ∉ (escape_html s).data ∧ '>' ∉ (escape_html s).data := by
  obtain ⟨cs⟩ := s
  show '<' ∉ (strConcat (cs.map escapeHtmlChar)).data ∧
    '>' ∉ (strConcat (cs.map escapeHtmlChar)).data
  induction cs with
  | nil => exact ⟨List.not_mem_nil _, List.not_mem_nil _⟩
  | cons c rest ih =>
    rw [List.map_cons, strConcat, strData_append]
    constructor
    · intro hm
      rcases List.mem_append.mp hm with hm | hm
      · exact (escapeHtmlChar_no_angle c).1 hm
      · exact ih.1 hm
    · intro hm
      rcases List.mem_append.mp hm with hm | hm
      · exact (escapeHtmlChar_no_angle c).2 hm
      · exact ih.2 hm

/-- Claim C8: in every body row, of the four cells only the message passes
through `escape_html` — idx, invoice id and event are interpolated verbatim,
markup included — while the escaped message can retain no angle bracket, as
the concrete tag example shows. -/
theorem c8_only_message_escaped (i inv ev m : String) :
    rowCellsA (mkErrorRecord i inv ev m) = .ok [i, inv, ev, escape_html m] ∧
    rowCellsB (mkErrorRecord i inv ev m) = .ok [i, inv, ev, escape_html m] ∧
    (∀ s : String, '<' ∉ (escape_html s).data ∧ '>' ∉ (escape_html s).data) ∧
    escape_html "<b>i</b>" = "&lt;b&gt;i&lt;&#x2F;b&gt;" := by
  refine ⟨rfl, rfl, fun s => escape_html_no_angle s, by decide⟩
